import Mathlib

/-!
Verification of the philnebula concept-mapping core: a shallow embedding of
the graph mutation engine (`useMapUI.ts`, `useMapInteraction`), the
asynchronous-enrichment entry points and completion merges (`useMapAI.ts`),
and the session persistence / migration layer (`useSessionManager.ts`),
together with theorems settling the frozen claims about them.

Conventions of the embedding:
- TypeScript `string | number` ids become `NodeId := String ⊕ Nat`.
- Optional TS fields become `Option _`; JS string truthiness (`""` is falsy)
  is modelled explicitly where the source relies on it.
- React `setLayout(prev => ...)` updaters become pure `Graph → Graph`
  functions; `setSession(prev => ...)` likewise on `Session`.
- A JS `Map` built by `new Map(nodes.map(n => [n.id, n]))` keeps the last
  entry per key, so `nodeMapGet` folds left keeping the last match.
- Nondeterministic inputs of the source (`Date.now()` ids, midpoints from a
  utility outside the embedded files) are taken as explicit parameters.
-/

namespace Phil

/-- TS `string | number` node identifiers. -/
inductive NodeId where
  | str (s : String)
  | num (n : Nat)
deriving DecidableEq, Repr

abbrev RelationshipType := String

/-- Node shape: `'rect' | 'circle'`. -/
inductive Shape where
  | rect
  | circle
deriving DecidableEq, Repr

/-- Link path style: `'straight' | 'curved'`. -/
inductive PathStyle where
  | straight
  | curved
deriving DecidableEq, Repr

/-- Enrichment state tag: `'idle' | 'loading' | 'success' | 'error'`. -/
inductive EnrichState where
  | idle
  | loading
  | success
  | error
deriving DecidableEq, Repr

/-- A resolved citation as attached to justifications and citation nodes. -/
structure Citation where
  sourceId : String
  citedText : String
  sourceTitle : String
  source : String
  url : String
deriving DecidableEq, Repr

/-- Structured justification payload `{ text, citations }`. -/
structure Justification where
  text : String
  citations : List Citation
deriving DecidableEq, Repr

/-- `synthesisInfo` explanation payload on AI-derived nodes. -/
structure SynthesisInfo where
  synthesis : String
  reasoning : String
deriving DecidableEq, Repr

/-- A node of the map (`MapNode` in `types`). Optional TS fields are
`Option`; absent provenance booleans are modelled as `false` (both are falsy
in every test the source performs). -/
structure MapNode where
  id : NodeId
  name : String
  x : Int
  y : Int
  shape : Shape
  width : Int
  height : Int
  textColor : Option String := none
  notes : Option String := none
  isAiGenerated : Bool := false
  isHistorical : Bool := false
  isUserDefined : Bool := false
  isDialectic : Bool := false
  isCitation : Bool := false
  isCounterExample : Bool := false
  synthesisInfo : Option SynthesisInfo := none
  citationData : Option Citation := none
deriving DecidableEq, Repr

/-- A link of the map (`MapLink` in `types`). The three enrichment state
tags are optional in TS (links created by `handlePinCitation` omit them), so
they are `Option EnrichState` here. -/
structure MapLink where
  source : NodeId
  target : NodeId
  pathStyle : PathStyle
  relationshipTypes : List RelationshipType
  justification : Option Justification := none
  justificationState : Option EnrichState := none
  implications : Option (List String) := none
  implicationsState : Option EnrichState := none
  formalRepresentation : Option String := none
  formalizationState : Option EnrichState := none
  isHistorical : Bool := false
  isCounterExampleLink : Bool := false
deriving DecidableEq, Repr

/-- One proposition row of a formalization result. -/
structure Proposition where
  variable_ : String
  meaning : String
deriving DecidableEq, Repr

/-- One formalization choice. -/
structure FormalizationChoice where
  formalRepresentation : String
  suggestedSystem : String
  rationale : String
deriving DecidableEq, Repr

/-- `FormalizationResult` returned by the formalization workflow. -/
structure FormalizationResult where
  propositions : List Proposition
  choices : List FormalizationChoice
  critique : String
deriving DecidableEq, Repr

/-- A recorded logical construct (`LogicalConstruct` in `types`). -/
structure LogicalConstruct where
  id : String
  premiseNodeIds : List NodeId
  conclusionNodeId : NodeId
  operator : String
  propositions : List Proposition
  critique : String
  formalRepresentation : String
  suggestedSystem : String
  rationale : String
deriving DecidableEq, Repr

/-- The layout triple `{ nodes, links, logicalConstructs }`. -/
structure Graph where
  nodes : List MapNode
  links : List MapLink
  logicalConstructs : List LogicalConstruct
deriving DecidableEq, Repr

/-- The empty layout. -/
def emptyGraph : Graph := ⟨[], [], []⟩

/-- `nodeMap.get(id)` for `nodeMap = new Map(nodes.map(n => [n.id, n]))`
(`index.tsx` line 117). A JS `Map` keeps the last entry per key, hence the
left fold that overwrites earlier matches. -/
def nodeMapGet (ns : List MapNode) (i : NodeId) : Option MapNode :=
  ns.foldl (fun acc n => if n.id = i then some n else acc) none

/-- Payload of the `CREATE_MAP_LINK` activity entry logged by `createLink`. -/
structure CreateMapLinkPayload where
  sourceId : NodeId
  targetId : NodeId
  sourceName : String
  targetName : String
  relationships : List RelationshipType
deriving DecidableEq, Repr

/-- `createLink(sourceId, targetId, relationshipTypes)` from `useMapUI.ts`
lines 204–230. Looks both endpoints up in the node map; when both exist it
logs a `CREATE_MAP_LINK` activity (returned as `some payload`) and appends a
fresh link with all enrichment states `idle`; otherwise nothing happens.
There is no duplicate-link check in this function. -/
def createLink (sourceId targetId : NodeId) (relationshipTypes : List RelationshipType)
    (g : Graph) : Graph × Option CreateMapLinkPayload :=
  match nodeMapGet g.nodes sourceId, nodeMapGet g.nodes targetId with
  | some sourceNode, some targetNode =>
      ({ g with links := g.links ++ [{
            source := sourceId
            target := targetId
            pathStyle := PathStyle.straight
            relationshipTypes :=
              if relationshipTypes.length > 0 then relationshipTypes
              else ["Unclassified"]
            justificationState := some EnrichState.idle
            implicationsState := some EnrichState.idle
            formalizationState := some EnrichState.idle }] },
       some { sourceId, targetId,
              sourceName := sourceNode.name, targetName := targetNode.name,
              relationships := relationshipTypes })
  | _, _ => (g, none)

/-- `deleteNode(nodeId)` from `useMapUI.ts` lines 158–165: one state
transition filtering the node, every link touching it, and every logical
construct referencing it as conclusion or premise. -/
def deleteNode (nodeId : NodeId) (g : Graph) : Graph :=
  { nodes := g.nodes.filter fun n => decide (n.id ≠ nodeId)
    links := g.links.filter fun l => decide (l.source ≠ nodeId ∧ l.target ≠ nodeId)
    logicalConstructs := g.logicalConstructs.filter fun c =>
      decide (c.conclusionNodeId ≠ nodeId ∧ nodeId ∉ c.premiseNodeIds) }

/-- `deleteLink(link)` from `useMapUI.ts` lines 196–202. -/
def deleteLink (link : MapLink) (g : Graph) : Graph :=
  { g with links := g.links.filter fun l =>
      decide (¬ (l.source = link.source ∧ l.target = link.target)) }

/-- `updateLinkRelationshipTypes(linkToUpdate, newTypes)` from `useMapUI.ts`
lines 183–194: empty input collapses to `['Unclassified']`. -/
def updateLinkRelationshipTypes (linkToUpdate : MapLink)
    (newTypes : List RelationshipType) (g : Graph) : Graph :=
  { g with links := g.links.map fun l =>
      if l.source = linkToUpdate.source ∧ l.target = linkToUpdate.target then
        { l with relationshipTypes :=
            if newTypes.length > 0 then newTypes else ["Unclassified"] }
      else l }

/-- `updateLinkPathStyle(link, pathStyle)` from `useMapUI.ts` lines 175–181. -/
def updateLinkPathStyle (link : MapLink) (pathStyle : PathStyle) (g : Graph) : Graph :=
  { g with links := g.links.map fun l =>
      if l.source = link.source ∧ l.target = link.target then
        { l with pathStyle := pathStyle }
      else l }

/-- `updateNodeShape(nodeId, shape)` from `useMapUI.ts` lines 167–173. -/
def updateNodeShape (nodeId : NodeId) (shape : Shape) (g : Graph) : Graph :=
  { g with nodes := g.nodes.map fun n =>
      if n.id = nodeId then { n with shape := shape } else n }

/-- `handleTextColorChange(nodeId, color)` from `useMapUI.ts` lines 148–156. -/
def handleTextColorChange (nodeId : NodeId) (color : String) (g : Graph) : Graph :=
  { g with nodes := g.nodes.map fun n =>
      if n.id = nodeId then { n with textColor := some color } else n }

/-- `handleNodeNameChange(nodeId, newName)` from `useMapUI.ts` lines 232–239. -/
def handleNodeNameChange (nodeId : NodeId) (newName : String) (g : Graph) : Graph :=
  { g with nodes := g.nodes.map fun n =>
      if n.id = nodeId then { n with name := newName } else n }

/-- `handleSaveNote(nodeId, content)` from `useMapUI.ts` lines 279–289. -/
def handleSaveNote (nodeId : NodeId) (content : String) (g : Graph) : Graph :=
  { g with nodes := g.nodes.map fun n =>
      if n.id = nodeId then { n with notes := some content } else n }

/-- The layout update of `handleConceptChangeSelect` from `useMapUI.ts`
lines 98–110: rewrites the node's identity to the chosen catalog concept,
clearing the listed provenance fields, and rewrites every link endpoint
that referenced the old id. -/
def conceptChangeSelect (oldId newId : NodeId) (newName : String) (g : Graph) : Graph :=
  { g with
    nodes := g.nodes.map fun n =>
      if n.id = oldId then
        { n with
          id := newId
          name := newName
          isAiGenerated := false
          isHistorical := false
          isUserDefined := false
          synthesisInfo := none
          isDialectic := false
          isCitation := false }
      else n
    links := g.links.map fun l =>
      if l.source = oldId then { l with source := newId }
      else if l.target = oldId then { l with target := newId }
      else l }

/-- The layout update of `handleCreateLogicalConstruct` from `useMapUI.ts`
lines 117–146: appends the construct built from the workbench's combined
argument and the selected formalization choice. The fresh id
(`lconstruct_${Date.now()}`) is taken as a parameter; an out-of-range choice
index (which would fault in the source) is defaulted. -/
def createLogicalConstruct (freshId : String) (premises : List MapNode)
    (conclusion : MapNode) (formalizationResult : FormalizationResult)
    (selectedFormalizationIndex : Nat) (g : Graph) : Graph :=
  let selectedChoice :=
    (formalizationResult.choices.get? selectedFormalizationIndex).getD ⟨"", "", ""⟩
  { g with logicalConstructs := g.logicalConstructs ++ [{
      id := freshId
      premiseNodeIds := premises.map (·.id)
      conclusionNodeId := conclusion.id
      operator := "AND"
      propositions := formalizationResult.propositions
      critique := formalizationResult.critique
      formalRepresentation := selectedChoice.formalRepresentation
      suggestedSystem := selectedChoice.suggestedSystem
      rationale := selectedChoice.rationale }] }

/-- `handlePinCitation(link, citation)` from `useMapUI.ts` lines 241–270:
adds a citation node near the link midpoint plus a `Cited` link from the
original source to it. The midpoint comes from `getMidpoint`
(`utils/calculations`, outside the embedded files) and the fresh id from
`Date.now()`; both are parameters since no claim depends on them. -/
def handlePinCitation (link : MapLink) (citation : Citation)
    (mid : Int × Int) (freshId : String) (g : Graph) : Graph :=
  { g with
    nodes := g.nodes ++ [{
      id := NodeId.str freshId
      name := citation.source ++ ": " ++ citation.sourceTitle.take 20 ++ "..."
      x := mid.1 + 40
      y := mid.2 - 40
      shape := Shape.rect
      width := 160
      height := 40
      isCitation := true
      citationData := some citation }]
    links := g.links ++ [{
      source := link.source
      target := NodeId.str freshId
      pathStyle := PathStyle.curved
      relationshipTypes := ["Cited"] }] }

/-- Node insertion of `handleDrop` from `useMapInteraction`
(`src/unnamed/part_000` lines 273–284): no-op when a node with the dropped
id is already on the map. -/
def handleDrop (droppedId : Nat) (droppedName : String) (pos : Int × Int)
    (g : Graph) : Graph :=
  if (g.nodes.find? fun n => decide (n.id = NodeId.num droppedId)).isSome then g
  else
    { g with nodes := g.nodes ++ [{
        id := NodeId.num droppedId, name := droppedName,
        x := pos.1, y := pos.2, shape := Shape.rect, width := 150, height := 40 }] }

/-- Node insertion of `handleBackgroundDoubleClick` from `useMapInteraction`
(`src/unnamed/part_000` lines 115–132): mints a user-defined `New Concept`
node at the click position; the `user_${Date.now()}` id is a parameter. -/
def backgroundDoubleClickAddNode (freshId : String) (pos : Int × Int)
    (g : Graph) : Graph :=
  { g with nodes := g.nodes ++ [{
      id := NodeId.str freshId, name := "New Concept",
      x := pos.1, y := pos.2, shape := Shape.rect, width := 150, height := 40,
      isUserDefined := true }] }

/-- `updateNodePosition` from `useMapInteraction`
(`src/unnamed/part_000` lines 55–60). -/
def updateNodePosition (nodeId : NodeId) (x y : Int) (g : Graph) : Graph :=
  { g with nodes := g.nodes.map fun n =>
      if n.id = nodeId then { n with x := x, y := y } else n }

/-- The node-resize layout update of `useMapInteraction`
(`src/unnamed/part_000` lines 214–219): the candidate dimensions are
computed from pointer deltas (and equalised for circles) before the
update and arrive as parameters; the update itself clamps both to a
minimum of 40. -/
def resizeNode (nodeId : NodeId) (newWidth newHeight : Int) (g : Graph) : Graph :=
  { g with nodes := g.nodes.map fun n =>
      if n.id = nodeId then
        { n with width := max 40 newWidth, height := max 40 newHeight }
      else n }

/-- The link-duplication guard of `handleNodeClick` from `useMapInteraction`
(`src/unnamed/part_000` lines 74–93): with a pending `linkingNode`, the
relationship menu (the only route into `createLink`) opens only when the
clicked node differs, no link already connects the pair in either
direction, and the linking source still exists in the node map. -/
def handleNodeClickOpensMenu (g : Graph) (linkingNode clickedId : NodeId) : Bool :=
  decide (linkingNode ≠ clickedId)
  && !(g.links.any fun l =>
        decide ((l.source = linkingNode ∧ l.target = clickedId)
          ∨ (l.source = clickedId ∧ l.target = linkingNode)))
  && (nodeMapGet g.nodes linkingNode).isSome

/-! ### Asynchronous enrichment (`useMapAI.ts`)

Each workflow is split at its suspension point: a synchronous *start*
function that performs the guard checks, marks the field `loading` and
dispatches the request (the returned `Bool` records whether the external
call was made), and pure *completion* functions applying the success or
error merge against the graph current at completion time. -/

/-- Start of `generateJustification(link)` (`useMapAI.ts` lines 28–49):
returns unchanged with no dispatch when either endpoint is missing from the
node map; otherwise marks the matching link `loading` and dispatches. The
source performs no check of `justificationState`. -/
def generateJustificationStart (link : MapLink) (g : Graph) : Graph × Bool :=
  match nodeMapGet g.nodes link.source, nodeMapGet g.nodes link.target with
  | some _, some _ =>
      ({ g with links := g.links.map fun l =>
          if l.source = link.source ∧ l.target = link.target then
            { l with justificationState := some EnrichState.loading }
          else l }, true)
  | _, _ => (g, false)

/-- Success merge of `generateJustification` (`useMapAI.ts` line 103):
re-locates the link by `(source, target)` in the current links array. -/
def applyJustificationSuccess (src tgt : NodeId) (newJustification : Justification)
    (g : Graph) : Graph :=
  { g with links := g.links.map fun l =>
      if l.source = src ∧ l.target = tgt then
        { l with justificationState := some EnrichState.success
                 justification := some newJustification }
      else l }

/-- Error merge of `generateJustification` (`useMapAI.ts` lines 105–109):
stores the fallback payload on the link re-located by key. -/
def applyJustificationError (src tgt : NodeId) (g : Graph) : Graph :=
  { g with links := g.links.map fun l =>
      if l.source = src ∧ l.target = tgt then
        { l with justificationState := some EnrichState.error
                 justification := some ⟨"Failed to generate justification.", []⟩ }
      else l }

/-- Start of `handleExploreImplications(link)` (`useMapAI.ts` lines
220–228): a no-op without dispatch when an endpoint is missing **or the
link's `implicationsState` is already `loading`**; otherwise marks the
matching link `loading` and dispatches. -/
def handleExploreImplicationsStart (link : MapLink) (g : Graph) : Graph × Bool :=
  if (nodeMapGet g.nodes link.source).isNone
      ∨ (nodeMapGet g.nodes link.target).isNone
      ∨ link.implicationsState = some EnrichState.loading then
    (g, false)
  else
    ({ g with links := g.links.map fun l =>
        if l.source = link.source ∧ l.target = link.target then
          { l with implicationsState := some EnrichState.loading }
        else l }, true)

/-- Success merge of `handleExploreImplications` (`useMapAI.ts` lines
267–270). -/
def applyImplicationsSuccess (src tgt : NodeId) (questions : List String)
    (g : Graph) : Graph :=
  { g with links := g.links.map fun l =>
      if l.source = src ∧ l.target = tgt then
        { l with implicationsState := some EnrichState.success
                 implications := some questions }
      else l }

/-- Error merge of `handleExploreImplications` (`useMapAI.ts` lines
271–277). -/
def applyImplicationsError (src tgt : NodeId) (g : Graph) : Graph :=
  { g with links := g.links.map fun l =>
      if l.source = src ∧ l.target = tgt then
        { l with implicationsState := some EnrichState.error
                 implications :=
                   some ["The AI could not generate implications for this link."] }
      else l }

/-- Start of the link case of `handleFormalizeArgument` (`useMapAI.ts`
lines 536–563): bails without dispatch when an endpoint is missing;
otherwise marks the link's `formalizationState` `loading` and dispatches.
The source performs no check of `formalizationState`. -/
def handleFormalizeArgumentLinkStart (link : MapLink) (g : Graph) : Graph × Bool :=
  match nodeMapGet g.nodes link.source, nodeMapGet g.nodes link.target with
  | some _, some _ =>
      ({ g with links := g.links.map fun l =>
          if l.source = link.source ∧ l.target = link.target then
            { l with formalizationState := some EnrichState.loading }
          else l }, true)
  | _, _ => (g, false)

/-- Success merge of the link case of `handleFormalizeArgument`
(`useMapAI.ts` lines 641–646): stores the first choice's formal
representation on the link re-located by key. -/
def applyFormalizationSuccess (src tgt : NodeId) (result : FormalizationResult)
    (g : Graph) : Graph :=
  { g with links := g.links.map fun l =>
      if l.source = src ∧ l.target = tgt then
        { l with formalizationState := some EnrichState.success
                 formalRepresentation :=
                   some (((result.choices.get? 0).getD ⟨"", "", ""⟩).formalRepresentation) }
      else l }

/-- Error merge of the link case of `handleFormalizeArgument`
(`useMapAI.ts` lines 650–655). -/
def applyFormalizationError (src tgt : NodeId) (g : Graph) : Graph :=
  { g with links := g.links.map fun l =>
      if l.source = src ∧ l.target = tgt then
        { l with formalizationState := some EnrichState.error }
      else l }

/-- Additive insertion of `handleSynthesizeRegion` success (`useMapAI.ts`
lines 169–207): a synthesized concept node at the centroid of the selected
nodes, plus a `Synthesizes` link from it to each selected node. The
`synth_${Date.now()}` id and the AI-returned name/synthesis/reasoning
strings are parameters. -/
def handleSynthesizeRegionInsert (freshId : String) (selectedNodes : List MapNode)
    (emergentConceptName synthesis reasoning : String) (g : Graph) : Graph :=
  { g with
    nodes := g.nodes ++ [{
      id := NodeId.str freshId
      name := emergentConceptName
      x := (selectedNodes.map (·.x)).sum / (selectedNodes.length : Int)
      y := (selectedNodes.map (·.y)).sum / (selectedNodes.length : Int)
      shape := Shape.rect
      width := 180
      height := 50
      isAiGenerated := true
      synthesisInfo := some ⟨synthesis, reasoning⟩ }]
    links := g.links ++ selectedNodes.map fun n => {
      source := NodeId.str freshId
      target := n.id
      pathStyle := PathStyle.curved
      relationshipTypes := ["Synthesizes"] } }

/-- One AI-returned genealogy entry as it reaches the insertion loop of
`handleAnalyzeGenealogy`: the derived `hist_…` id (a text mangling of the
entry name and the anchor id) and the radial trigonometric position are
string/real computations outside the graph and arrive as fields. -/
structure GenealogyEntry where
  newId : String
  name : String
  summary : String
  isPrecursor : Bool
  pos : Int × Int
deriving DecidableEq, Repr

/-- Additive insertion of `handleAnalyzeGenealogy` success (`useMapAI.ts`
lines 339–378): every entry whose derived id is not already a node id adds
a circular historical node and a `Contextual` link oriented by whether the
entry is a precursor. The duplicate check runs against the node list as it
was before the insertion, exactly as the source's
`nodeMap.has(newId) || nodes.some(...)` does. -/
def handleAnalyzeGenealogyInsert (sourceId : NodeId)
    (entries : List GenealogyEntry) (g : Graph) : Graph :=
  { g with
    nodes := g.nodes ++
      ((entries.filter fun e =>
          !(g.nodes.any fun n => decide (n.id = NodeId.str e.newId))).map fun e => {
        id := NodeId.str e.newId
        name := e.name
        x := e.pos.1
        y := e.pos.2
        shape := Shape.circle
        width := 80
        height := 80
        isHistorical := true
        synthesisInfo := some ⟨e.summary, ""⟩ })
    links := g.links ++
      ((entries.filter fun e =>
          !(g.nodes.any fun n => decide (n.id = NodeId.str e.newId))).map fun e =>
        if e.isPrecursor then {
          source := NodeId.str e.newId
          target := sourceId
          pathStyle := PathStyle.curved
          relationshipTypes := ["Contextual"]
          isHistorical := true }
        else {
          source := sourceId
          target := NodeId.str e.newId
          pathStyle := PathStyle.curved
          relationshipTypes := ["Contextual"]
          isHistorical := true }) }

/-- Which dialectic item is being pinned by `handleAddDialecticNode`:
a counterargument, a proponent voice, or an opponent voice. -/
inductive DialecticKind where
  | counter
  | proponent
  | opponent
deriving DecidableEq, Repr

/-- `handleAddDialecticNode(item, type, dialecticAnalysisLink)`
(`useMapAI.ts` lines 477–534): no-op when either endpoint of the analysed
link is missing from the node map; otherwise adds one dialectic node and
one link. For `counter`, `title`/`detail` are the counterargument's title
and description, the node sits below the link midpoint (a parameter, as in
`handlePinCitation`) and an `Oppositional` link targets the analysed
link's target. For voices, `title`/`detail` are the philosopher's name and
relevance, the node is offset from the source (proponent) or target
(opponent) anchor, and the link is `Supportive` or `Oppositional`. -/
def handleAddDialecticNode (kind : DialecticKind) (title detail : String)
    (dialecticAnalysisLink : MapLink) (mid : Int × Int) (freshId : String)
    (g : Graph) : Graph :=
  match nodeMapGet g.nodes dialecticAnalysisLink.source,
        nodeMapGet g.nodes dialecticAnalysisLink.target with
  | some sourceNode, some targetNode =>
      match kind with
      | DialecticKind.counter =>
          { g with
            nodes := g.nodes ++ [{
              id := NodeId.str freshId
              name := title
              x := mid.1
              y := mid.2 + 80
              shape := Shape.rect
              width := 160
              height := 40
              isDialectic := true
              synthesisInfo := some ⟨detail, "AI-generated counterargument."⟩ }]
            links := g.links ++ [{
              source := NodeId.str freshId
              target := dialecticAnalysisLink.target
              pathStyle := PathStyle.curved
              relationshipTypes := ["Oppositional"] }] }
      | DialecticKind.proponent =>
          { g with
            nodes := g.nodes ++ [{
              id := NodeId.str freshId
              name := title
              x := sourceNode.x - 80
              y := sourceNode.y + 80
              shape := Shape.circle
              width := 80
              height := 80
              isDialectic := true
              synthesisInfo := some ⟨detail, ""⟩ }]
            links := g.links ++ [{
              source := NodeId.str freshId
              target := sourceNode.id
              pathStyle := PathStyle.curved
              relationshipTypes := ["Supportive"] }] }
      | DialecticKind.opponent =>
          { g with
            nodes := g.nodes ++ [{
              id := NodeId.str freshId
              name := title
              x := targetNode.x + 80
              y := targetNode.y + 80
              shape := Shape.circle
              width := 80
              height := 80
              isDialectic := true
              synthesisInfo := some ⟨detail, ""⟩ }]
            links := g.links ++ [{
              source := NodeId.str freshId
              target := targetNode.id
              pathStyle := PathStyle.curved
              relationshipTypes := ["Oppositional"] }] }
  | _, _ => g

/-- `handleAddCounterExampleNode(item, definition)` (`useMapAI.ts` lines
725–759): no-op when the analysed link's target is missing from the node
map; otherwise adds a counter-example node offset from the target and a
`Refutes` link to it. The interpolated synthesis sentence and the item's
justification arrive as parameters. -/
def handleAddCounterExampleNode (counterExample synthText justText : String)
    (linkTarget : NodeId) (freshId : String) (g : Graph) : Graph :=
  match nodeMapGet g.nodes linkTarget with
  | some targetNode =>
      { g with
        nodes := g.nodes ++ [{
          id := NodeId.str freshId
          name := counterExample
          x := targetNode.x + 80
          y := targetNode.y + 80
          shape := Shape.rect
          width := 160
          height := 40
          isCounterExample := true
          synthesisInfo := some ⟨synthText, justText⟩ }]
        links := g.links ++ [{
          source := NodeId.str freshId
          target := targetNode.id
          pathStyle := PathStyle.curved
          relationshipTypes := ["Refutes"]
          isCounterExampleLink := true }] }
  | none => g

/-! ### Session manager (`useSessionManager.ts`)

Two shapes: the runtime `Session` family (what the project-store operations
manipulate after load), and the `Stored*` family mirroring the raw persisted
JSON, where fields that the migration backfills are `Option`s. -/

/-- A feed subscription; only the transient flags that post-load sanitation
touches are modelled individually, `url` standing in for the rest. -/
structure FeedSubscription where
  url : String
  isLoading : Bool := false
  error : Option String := none
deriving DecidableEq, Repr

/-- A `ProjectActivity` diary entry; the loosely-typed payload is opaque. -/
structure ActivityEntry where
  id : String
  timestamp : Nat
  type : String
  payload : String
deriving DecidableEq, Repr

/-- Runtime `AppSessionData`. -/
structure AppSessionData where
  mapLayout : Graph
  mapTrayConceptIds : List NodeId
  trackedFeeds : List FeedSubscription
  seenPublicationIds : List String
  projectDiary : List ActivityEntry
deriving DecidableEq, Repr

/-- Runtime `Project`. -/
structure Project where
  id : String
  name : String
  data : AppSessionData
deriving DecidableEq, Repr

/-- `createNewProject(name)` (`useSessionManager.ts` lines 7–19): a fresh
project with empty `AppSessionData`. The `proj_${Date.now()}_${random}` id
is taken as a parameter. -/
def createNewProject (freshId : String) (name : String) : Project :=
  { id := freshId
    name := name
    data := {
      mapLayout := ⟨[], [], []⟩
      mapTrayConceptIds := []
      trackedFeeds := []
      seenPublicationIds := []
      projectDiary := [] } }

/-- Runtime `MultiProjectSession`. -/
structure Session where
  version : Nat
  activeProjectId : Option String
  projects : List Project
  customRelationshipTypes : List String
  disabledDefaultTypes : List String
  disabledCustomTypes : List String
deriving DecidableEq, Repr

/-- `handleSwitchProject(projectId)` (`useSessionManager.ts` lines
166–168): sets `activeProjectId` unconditionally — the source contains no
membership check. -/
def handleSwitchProject (projectId : String) (s : Session) : Session :=
  { s with activeProjectId := some projectId }

/-- `handleDeleteProject(projectId)` (`useSessionManager.ts` lines
170–182). The fresh id a replacement default project would get is a
parameter. -/
def handleDeleteProject (freshId : String) (projectId : String) (s : Session) : Session :=
  match s.projects.filter fun p => decide (p.id ≠ projectId) with
  | [] =>
      let newProject := createNewProject freshId "Default Project"
      { s with projects := [newProject], activeProjectId := some newProject.id }
  | p0 :: rest =>
      { s with
        projects := p0 :: rest
        activeProjectId :=
          if s.activeProjectId = some projectId then some p0.id
          else s.activeProjectId }

/-- `handleRenameProject(projectId, newName)` (`useSessionManager.ts`
lines 184–189). -/
def handleRenameProject (projectId : String) (newName : String) (s : Session) : Session :=
  { s with projects := s.projects.map fun p =>
      if p.id = projectId then { p with name := newName } else p }

/-- The current session schema version (`useSessionManager.ts` line 5). -/
def MULTI_PROJECT_SESSION_VERSION : Nat := 8

/-- The `justification` field of a stored link: absent, a legacy plain
string, or the structured object. -/
inductive JustField where
  | undef
  | str (s : String)
  | obj (j : Justification)
deriving DecidableEq, Repr

/-- A link as persisted: `relationshipType` (legacy singular) and
`relationshipTypes` may each be present or absent, `justification` may be a
legacy string. The remaining fields ride along untouched by migration. -/
structure StoredLink where
  source : NodeId
  target : NodeId
  pathStyle : Option PathStyle := none
  relationshipType : Option String := none
  relationshipTypes : Option (List String) := none
  justification : JustField := JustField.undef
  justificationState : Option EnrichState := none
  implications : Option (List String) := none
  implicationsState : Option EnrichState := none
  formalRepresentation : Option String := none
  formalizationState : Option EnrichState := none
  isHistorical : Bool := false
  isCounterExampleLink : Bool := false
deriving DecidableEq, Repr

/-- A stored `mapLayout`: `links` and `logicalConstructs` may be absent in
old blobs (migration guards on `links`, backfills `logicalConstructs`). -/
structure StoredMapLayout where
  nodes : List MapNode
  links : Option (List StoredLink)
  logicalConstructs : Option (List LogicalConstruct)
deriving DecidableEq, Repr

/-- Stored per-project data: `projectDiary` may be absent (backfilled), and
sanitation reaches `trackedFeeds` through `p.data?.trackedFeeds`. -/
structure StoredAppData where
  mapLayout : StoredMapLayout
  mapTrayConceptIds : List NodeId
  trackedFeeds : Option (List FeedSubscription)
  seenPublicationIds : List String
  projectDiary : Option (List ActivityEntry)
deriving DecidableEq, Repr

/-- A stored project. -/
structure StoredProject where
  id : String
  name : String
  data : StoredAppData
deriving DecidableEq, Repr

/-- A stored multi-project session. A blob with no `version` key behaves
exactly like `version = 0` in every test the source performs (`!version`
and `version < 8`), so absence is folded into `0`. -/
structure StoredSession where
  version : Nat
  activeProjectId : Option String
  projects : List StoredProject
  customRelationshipTypes : Option (List String)
  disabledDefaultTypes : Option (List String)
  disabledCustomTypes : Option (List String)
deriving DecidableEq, Repr

/-- First half of the per-link migration (`useSessionManager.ts` lines
35–38): the singular legacy field is converted only when it is truthy (JS:
a non-empty string) **and** `relationshipTypes` is absent (a present array,
even empty, is truthy). -/
def migrateLinkRel (link : StoredLink) : StoredLink :=
  match link.relationshipType, link.relationshipTypes with
  | some v, none =>
      if v = "" then link
      else { link with relationshipTypes := some [v], relationshipType := none }
  | _, _ => link

/-- Second half of the per-link migration (`useSessionManager.ts` lines
39–41): a legacy string justification is wrapped as
`{ text, citations: [] }` unconditionally. -/
def migrateLinkJust (link : StoredLink) : StoredLink :=
  match link.justification with
  | JustField.str t => { link with justification := JustField.obj ⟨t, []⟩ }
  | _ => link

/-- Per-link migration step (`useSessionManager.ts` lines 33–43): the two
in-place rewrites applied in source order. -/
def migrateLink (link : StoredLink) : StoredLink :=
  migrateLinkJust (migrateLinkRel link)

/-- Per-project migration step (`useSessionManager.ts` lines 29–45):
backfills `projectDiary` and `mapLayout.logicalConstructs`, and maps
`migrateLink` over the links when present. -/
def migrateProject (p : StoredProject) : StoredProject :=
  { p with data := { p.data with
      projectDiary := some (p.data.projectDiary.getD [])
      mapLayout := { p.data.mapLayout with
        logicalConstructs := some (p.data.mapLayout.logicalConstructs.getD [])
        links := p.data.mapLayout.links.map (List.map migrateLink) } } }

/-- The migration chain of `loadInitialSession` (`useSessionManager.ts`
lines 27–51), run when `!version || version < 8`. -/
def migrateSession (s : StoredSession) : StoredSession :=
  { s with
    projects := s.projects.map migrateProject
    customRelationshipTypes := some (s.customRelationshipTypes.getD [])
    disabledDefaultTypes := some (s.disabledDefaultTypes.getD [])
    disabledCustomTypes := some (s.disabledCustomTypes.getD [])
    version := MULTI_PROJECT_SESSION_VERSION }

/-- Post-load feed sanitation (`useSessionManager.ts` lines 56–59). -/
def sanitizeFeed (f : FeedSubscription) : FeedSubscription :=
  { f with isLoading := false, error := none }

/-- Per-project post-load sanitation (`useSessionManager.ts` lines
54–63). -/
def sanitizeProject (p : StoredProject) : StoredProject :=
  { p with data := { p.data with
      trackedFeeds := p.data.trackedFeeds.map (List.map sanitizeFeed)
      projectDiary := some (p.data.projectDiary.getD [])
      mapLayout := { p.data.mapLayout with
        logicalConstructs := some (p.data.mapLayout.logicalConstructs.getD []) } } }

/-- Session-level post-load sanitation (`useSessionManager.ts` lines
53–72): feed flags cleared, defensive backfills, and `activeProjectId`
repaired to the first project's id when it matches no project
(`projects[0]?.id || null` — an empty-string id is falsy in JS). -/
def sanitizeSession (s : StoredSession) : StoredSession :=
  let s1 := { s with
    projects := s.projects.map sanitizeProject
    customRelationshipTypes := some (s.customRelationshipTypes.getD [])
    disabledDefaultTypes := some (s.disabledDefaultTypes.getD [])
    disabledCustomTypes := some (s.disabledCustomTypes.getD []) }
  if s1.projects.any fun p => decide (some p.id = s1.activeProjectId) then s1
  else
    { s1 with activeProjectId :=
        match s1.projects.head? with
        | some p => if p.id = "" then none else some p.id
        | none => none }

/-- The saved-session branch of `loadInitialSession` (`useSessionManager.ts`
lines 23–78): migrate when the version is absent or behind, sanitize and
return when the version then equals the current constant. `none` is the
fall-through to the legacy single-project import (also taken when the
stored version exceeds the constant). -/
def loadSavedSession (s : StoredSession) : Option StoredSession :=
  let s1 :=
    if s.version = 0 ∨ s.version < MULTI_PROJECT_SESSION_VERSION
    then migrateSession s else s
  if s1.version = MULTI_PROJECT_SESSION_VERSION
  then some (sanitizeSession s1) else none

/-! ### Reachability by the mutation operations

`Step g g'` holds when one layout mutation of the program turns `g` into
`g'`: the twelve mutations of `useMapUI.ts`, the four of
`useMapInteraction` (`src/unnamed/part_000`: drop, double-click node
creation, drag repositioning, resize), and the thirteen of `useMapAI.ts`
(the three loading-state starts, the six success/error completion merges,
and the four additive insertions on synthesis, genealogy, dialectic and
counter-example success). These are the only `setLayout` call sites in the
repository (`App.tsx` and `ProjectDiaryPanel.tsx` only pass the setter
through). `Reachable` closes the empty layout under these steps. -/

/-- One mutation step over the layout. -/
inductive Step : Graph → Graph → Prop where
  | createLink (s t : NodeId) (tys : List RelationshipType) (g : Graph) :
      Step g (createLink s t tys g).1
  | deleteNode (i : NodeId) (g : Graph) : Step g (deleteNode i g)
  | deleteLink (l : MapLink) (g : Graph) : Step g (deleteLink l g)
  | updateLinkRelationshipTypes (l : MapLink) (tys : List RelationshipType)
      (g : Graph) : Step g (updateLinkRelationshipTypes l tys g)
  | updateLinkPathStyle (l : MapLink) (ps : PathStyle) (g : Graph) :
      Step g (updateLinkPathStyle l ps g)
  | updateNodeShape (i : NodeId) (sh : Shape) (g : Graph) :
      Step g (updateNodeShape i sh g)
  | handleTextColorChange (i : NodeId) (c : String) (g : Graph) :
      Step g (handleTextColorChange i c g)
  | handleNodeNameChange (i : NodeId) (nm : String) (g : Graph) :
      Step g (handleNodeNameChange i nm g)
  | handleSaveNote (i : NodeId) (content : String) (g : Graph) :
      Step g (handleSaveNote i content g)
  | conceptChangeSelect (oldId newId : NodeId) (nm : String) (g : Graph) :
      Step g (conceptChangeSelect oldId newId nm g)
  | createLogicalConstruct (freshId : String) (prem : List MapNode)
      (concl : MapNode) (fr : FormalizationResult) (idx : Nat) (g : Graph) :
      Step g (createLogicalConstruct freshId prem concl fr idx g)
  | handlePinCitation (l : MapLink) (c : Citation) (mid : Int × Int)
      (freshId : String) (g : Graph) : Step g (handlePinCitation l c mid freshId g)
  | handleDrop (i : Nat) (nm : String) (pos : Int × Int) (g : Graph) :
      Step g (handleDrop i nm pos g)
  | backgroundDoubleClickAddNode (freshId : String) (pos : Int × Int) (g : Graph) :
      Step g (backgroundDoubleClickAddNode freshId pos g)
  | updateNodePosition (i : NodeId) (x y : Int) (g : Graph) :
      Step g (updateNodePosition i x y g)
  | resizeNode (i : NodeId) (w h : Int) (g : Graph) : Step g (resizeNode i w h g)
  | generateJustificationStart (l : MapLink) (g : Graph) :
      Step g (generateJustificationStart l g).1
  | applyJustificationSuccess (src tgt : NodeId) (j : Justification) (g : Graph) :
      Step g (applyJustificationSuccess src tgt j g)
  | applyJustificationError (src tgt : NodeId) (g : Graph) :
      Step g (applyJustificationError src tgt g)
  | handleExploreImplicationsStart (l : MapLink) (g : Graph) :
      Step g (handleExploreImplicationsStart l g).1
  | applyImplicationsSuccess (src tgt : NodeId) (qs : List String) (g : Graph) :
      Step g (applyImplicationsSuccess src tgt qs g)
  | applyImplicationsError (src tgt : NodeId) (g : Graph) :
      Step g (applyImplicationsError src tgt g)
  | handleFormalizeArgumentLinkStart (l : MapLink) (g : Graph) :
      Step g (handleFormalizeArgumentLinkStart l g).1
  | applyFormalizationSuccess (src tgt : NodeId) (fr : FormalizationResult)
      (g : Graph) : Step g (applyFormalizationSuccess src tgt fr g)
  | applyFormalizationError (src tgt : NodeId) (g : Graph) :
      Step g (applyFormalizationError src tgt g)
  | handleSynthesizeRegionInsert (freshId : String) (sel : List MapNode)
      (nm syn rs : String) (g : Graph) :
      Step g (handleSynthesizeRegionInsert freshId sel nm syn rs g)
  | handleAnalyzeGenealogyInsert (sourceId : NodeId)
      (entries : List GenealogyEntry) (g : Graph) :
      Step g (handleAnalyzeGenealogyInsert sourceId entries g)
  | handleAddDialecticNode (kind : DialecticKind) (title detail : String)
      (lk : MapLink) (mid : Int × Int) (freshId : String) (g : Graph) :
      Step g (handleAddDialecticNode kind title detail lk mid freshId g)
  | handleAddCounterExampleNode (ce syn just : String) (tgt : NodeId)
      (freshId : String) (g : Graph) :
      Step g (handleAddCounterExampleNode ce syn just tgt freshId g)

/-- Layouts reachable from the empty layout by mutation steps. -/
inductive Reachable : Graph → Prop where
  | init : Reachable emptyGraph
  | step {g g' : Graph} : Reachable g → Step g g' → Reachable g'

/-- Every link of the layout carries at least one relationship type. -/
def linkTypesNonEmpty (g : Graph) : Prop :=
  ∀ l ∈ g.links, l.relationshipTypes ≠ []

/-! ### Concrete instances used to exercise the theorems -/

/-- Concept node `A`. -/
def nA : MapNode :=
  { id := NodeId.num 1, name := "A", x := 0, y := 0,
    shape := Shape.rect, width := 150, height := 40 }

/-- Concept node `B`. -/
def nB : MapNode :=
  { id := NodeId.num 2, name := "B", x := 100, y := 0,
    shape := Shape.rect, width := 150, height := 40 }

/-- A `Supportive` link from `A` to `B` as `createLink` would mint it. -/
def linkAB : MapLink :=
  { source := NodeId.num 1, target := NodeId.num 2,
    pathStyle := PathStyle.straight, relationshipTypes := ["Supportive"],
    justificationState := some EnrichState.idle,
    implicationsState := some EnrichState.idle,
    formalizationState := some EnrichState.idle }

/-- A layout holding `A`, `B` and the link between them. -/
def gAB : Graph := ⟨[nA, nB], [linkAB], []⟩

/-- The `A → B` link with a justification request already in flight. -/
def linkABjLoading : MapLink :=
  { linkAB with justificationState := some EnrichState.loading }

/-- Layout with a justification enrichment in flight on the link. -/
def gJLoading : Graph := ⟨[nA, nB], [linkABjLoading], []⟩

/-- The `A → B` link with an implications request already in flight. -/
def linkABiLoading : MapLink :=
  { linkAB with implicationsState := some EnrichState.loading }

/-- Layout with an implications enrichment in flight on the link. -/
def gILoading : Graph := ⟨[nA, nB], [linkABiLoading], []⟩

/-- A logical construct concluding `B` from premise `A`. -/
def lcAB : LogicalConstruct :=
  { id := "lconstruct_1", premiseNodeIds := [NodeId.num 1],
    conclusionNodeId := NodeId.num 2, operator := "AND", propositions := [],
    critique := "", formalRepresentation := "P -> Q",
    suggestedSystem := "propositional", rationale := "" }

/-- Layout holding nodes, a link and a construct all touching node `A`. -/
def gFull : Graph := ⟨[nA, nB], [linkAB], [lcAB]⟩

/-- A runtime project `p1` named `Alpha` with empty data. -/
def projP1 : Project := createNewProject "p1" "Alpha"

/-- A runtime session whose only project `p1` is active. -/
def sessP1 : Session :=
  { version := MULTI_PROJECT_SESSION_VERSION, activeProjectId := some "p1",
    projects := [projP1], customRelationshipTypes := [],
    disabledDefaultTypes := [], disabledCustomTypes := [] }

/-- A stored link carrying **both** the legacy singular `relationshipType`
and a `relationshipTypes` array, plus a legacy string justification. -/
def storedLinkBoth : StoredLink :=
  { source := NodeId.num 1, target := NodeId.num 2,
    relationshipType := some "Causal",
    relationshipTypes := some ["Supportive"],
    justification := JustField.str "because X" }

/-- A stored link in the pure legacy shape: singular `relationshipType`
only, string justification. -/
def storedLinkLegacy : StoredLink :=
  { source := NodeId.num 1, target := NodeId.num 2,
    relationshipType := some "Causal",
    justification := JustField.str "because X" }

/-- Stored project data around a single given link list. -/
def storedDataWith (links : List StoredLink) : StoredAppData :=
  { mapLayout := { nodes := [], links := some links, logicalConstructs := some [] }
    mapTrayConceptIds := []
    trackedFeeds := some []
    seenPublicationIds := []
    projectDiary := some [] }

/-- A version-3 stored session whose single project holds
`storedLinkBoth`. -/
def storedSessBoth : StoredSession :=
  { version := 3, activeProjectId := some "p1",
    projects := [{ id := "p1", name := "P", data := storedDataWith [storedLinkBoth] }],
    customRelationshipTypes := some [], disabledDefaultTypes := some [],
    disabledCustomTypes := some [] }

/-- A version-3 stored session whose single project holds
`storedLinkLegacy`. -/
def storedSessLegacy : StoredSession :=
  { version := 3, activeProjectId := some "p1",
    projects := [{ id := "p1", name := "P", data := storedDataWith [storedLinkLegacy] }],
    customRelationshipTypes := some [], disabledDefaultTypes := some [],
    disabledCustomTypes := some [] }

/-- An already-current stored session: version 8, all collections present,
feed flags cleared, active id valid. -/
def storedSessCurrent : StoredSession :=
  { version := MULTI_PROJECT_SESSION_VERSION, activeProjectId := some "p1",
    projects := [{ id := "p1", name := "P", data := {
      mapLayout := { nodes := [nA], links := some [], logicalConstructs := some [] }
      mapTrayConceptIds := []
      trackedFeeds := some [{ url := "https://example.org/feed",
                              isLoading := false, error := none }]
      seenPublicationIds := []
      projectDiary := some [] } }],
    customRelationshipTypes := some ["Custom"], disabledDefaultTypes := some [],
    disabledCustomTypes := some [] }

/-- First stored link of the first project of a load result, when any. -/
def firstStoredLink (o : Option StoredSession) : Option StoredLink :=
  match o with
  | some s =>
      match s.projects with
      | p :: _ =>
          match p.data.mapLayout.links with
          | some (l :: _) => some l
          | _ => none
      | [] => none
  | none => none

/-- A layout reached from empty by dropping `A` and `B` and linking them
with an empty type list. -/
def gReached : Graph :=
  (createLink (NodeId.num 1) (NodeId.num 2) []
    (handleDrop 2 "B" (100, 0) (handleDrop 1 "A" (0, 0) emptyGraph))).1

/-! ### Helper lemmas -/

/-- A map whose function fixes every member is the identity. -/
theorem list_map_self {α : Type} (l : List α) (f : α → α)
    (h : ∀ x ∈ l, f x = x) : l.map f = l := by
  induction l with
  | nil => rfl
  | cons x xs ih =>
      simp only [List.map_cons]
      rw [h x (by simp), ih fun y hy => h y (by simp [hy])]

/-- Folding the node-map construction over nodes none of which carry the
key leaves the accumulator unchanged. -/
theorem nodeMapGet_foldl_of_not_mem (ns : List MapNode) (i : NodeId)
    (acc : Option MapNode) (h : ∀ nd ∈ ns, nd.id ≠ i) :
    ns.foldl (fun acc n => if n.id = i then some n else acc) acc = acc := by
  induction ns generalizing acc with
  | nil => rfl
  | cons n ns ih =>
      simp only [List.foldl_cons]
      rw [if_neg (h n (by simp))]
      exact ih _ fun nd hnd => h nd (by simp [hnd])

/-- A key carried by no node is absent from the node map. -/
theorem nodeMapGet_eq_none (ns : List MapNode) (i : NodeId)
    (h : ∀ nd ∈ ns, nd.id ≠ i) : nodeMapGet ns i = none :=
  nodeMapGet_foldl_of_not_mem ns i none h

/-- The node-map fold returns `some` as soon as the accumulator is `some`
or some listed node carries the key. -/
theorem nodeMapGet_foldl_isSome (ns : List MapNode) (i : NodeId)
    (acc : Option MapNode) (h : acc.isSome ∨ ∃ nd ∈ ns, nd.id = i) :
    (ns.foldl (fun acc n => if n.id = i then some n else acc) acc).isSome := by
  induction ns generalizing acc with
  | nil =>
      rcases h with h | ⟨nd, hnd, _⟩
      · exact h
      · simp at hnd
  | cons n ns ih =>
      simp only [List.foldl_cons]
      apply ih
      rcases h with h | ⟨nd, hnd, hid⟩
      · left
        by_cases hn : n.id = i <;> simp [hn, h]
      · rcases List.mem_cons.mp hnd with rfl | hmem
        · left
          simp [hid]
        · exact Or.inr ⟨nd, hmem, hid⟩

/-- A key carried by a listed node is present in the node map. -/
theorem nodeMapGet_isSome (ns : List MapNode) (i : NodeId)
    (h : ∃ nd ∈ ns, nd.id = i) : (nodeMapGet ns i).isSome :=
  nodeMapGet_foldl_isSome ns i none (Or.inr h)

/-- Mapping a function that keeps relationship types non-empty keeps the
layout invariant. -/
theorem linkTypesNonEmpty_map (g : Graph) (f : MapLink → MapLink)
    (hf : ∀ l, l.relationshipTypes ≠ [] → (f l).relationshipTypes ≠ [])
    (hg : linkTypesNonEmpty g) :
    linkTypesNonEmpty { g with links := g.links.map f } := by
  intro l hl
  obtain ⟨a, ha, rfl⟩ := List.mem_map.mp hl
  exact hf a (hg a ha)

/-- The non-empty-types invariant is preserved by every mutation step. -/
theorem linkTypesNonEmpty_preserved {g g' : Graph} (hs : Step g g')
    (hg : linkTypesNonEmpty g) : linkTypesNonEmpty g' := by
  cases hs with
  | createLink s t tys g =>
      intro l hl
      unfold createLink at hl
      rcases h1 : nodeMapGet g.nodes s with _ | sn <;>
        rcases h2 : nodeMapGet g.nodes t with _ | tn <;>
        rw [h1, h2] at hl
      · exact hg l hl
      · exact hg l hl
      · exact hg l hl
      · rcases List.mem_append.mp hl with h | h
        · exact hg l h
        · rcases List.mem_singleton.mp h with rfl
          by_cases hlen : tys.length > 0 <;> simp [hlen]
          exact List.length_pos.mp hlen
  | deleteNode i g =>
      intro l hl
      exact hg l (List.mem_filter.mp hl).1
  | deleteLink lk g =>
      intro l hl
      exact hg l (List.mem_filter.mp hl).1
  | updateLinkRelationshipTypes lk tys g =>
      refine linkTypesNonEmpty_map g _ ?_ hg
      intro l hlne
      by_cases hc : l.source = lk.source ∧ l.target = lk.target
      · rw [if_pos hc]
        by_cases hlen : tys.length > 0 <;> simp [hlen]
        exact List.length_pos.mp hlen
      · rwa [if_neg hc]
  | updateLinkPathStyle lk ps g =>
      refine linkTypesNonEmpty_map g _ ?_ hg
      intro l hlne
      by_cases hc : l.source = lk.source ∧ l.target = lk.target
      · rw [if_pos hc]; exact hlne
      · rwa [if_neg hc]
  | updateNodeShape i sh g => exact fun l hl => hg l hl
  | handleTextColorChange i c g => exact fun l hl => hg l hl
  | handleNodeNameChange i nm g => exact fun l hl => hg l hl
  | handleSaveNote i content g => exact fun l hl => hg l hl
  | conceptChangeSelect oldId newId nm g =>
      intro l hl
      obtain ⟨a, ha, rfl⟩ := List.mem_map.mp hl
      have hne := hg a ha
      by_cases h1 : a.source = oldId
      · rw [if_pos h1]; exact hne
      · rw [if_neg h1]
        by_cases h2 : a.target = oldId
        · rw [if_pos h2]; exact hne
        · rwa [if_neg h2]
  | createLogicalConstruct freshId prem concl fr idx g => exact fun l hl => hg l hl
  | handlePinCitation lk c mid freshId g =>
      intro l hl
      rcases List.mem_append.mp hl with h | h
      · exact hg l h
      · rcases List.mem_singleton.mp h with rfl
        simp
  | handleDrop i nm pos g =>
      unfold handleDrop
      split
      · exact hg
      · exact fun l hl => hg l hl
  | backgroundDoubleClickAddNode freshId pos g => exact fun l hl => hg l hl
  | updateNodePosition i x y g => exact fun l hl => hg l hl
  | resizeNode i w h g => exact fun l hl => hg l hl
  | generateJustificationStart lk g =>
      unfold generateJustificationStart
      split <;>
        first
          | exact hg
          | exact linkTypesNonEmpty_map g _
              (fun l hlne => by
                by_cases hc : l.source = lk.source ∧ l.target = lk.target
                · rw [if_pos hc]; exact hlne
                · rwa [if_neg hc]) hg
  | applyJustificationSuccess src tgt j g =>
      refine linkTypesNonEmpty_map g _ ?_ hg
      intro l hlne
      by_cases hc : l.source = src ∧ l.target = tgt
      · rw [if_pos hc]; exact hlne
      · rwa [if_neg hc]
  | applyJustificationError src tgt g =>
      refine linkTypesNonEmpty_map g _ ?_ hg
      intro l hlne
      by_cases hc : l.source = src ∧ l.target = tgt
      · rw [if_pos hc]; exact hlne
      · rwa [if_neg hc]
  | handleExploreImplicationsStart lk g =>
      unfold handleExploreImplicationsStart
      split <;>
        first
          | exact hg
          | exact linkTypesNonEmpty_map g _
              (fun l hlne => by
                by_cases hc : l.source = lk.source ∧ l.target = lk.target
                · rw [if_pos hc]; exact hlne
                · rwa [if_neg hc]) hg
  | applyImplicationsSuccess src tgt qs g =>
      refine linkTypesNonEmpty_map g _ ?_ hg
      intro l hlne
      by_cases hc : l.source = src ∧ l.target = tgt
      · rw [if_pos hc]; exact hlne
      · rwa [if_neg hc]
  | applyImplicationsError src tgt g =>
      refine linkTypesNonEmpty_map g _ ?_ hg
      intro l hlne
      by_cases hc : l.source = src ∧ l.target = tgt
      · rw [if_pos hc]; exact hlne
      · rwa [if_neg hc]
  | handleFormalizeArgumentLinkStart lk g =>
      unfold handleFormalizeArgumentLinkStart
      split <;>
        first
          | exact hg
          | exact linkTypesNonEmpty_map g _
              (fun l hlne => by
                by_cases hc : l.source = lk.source ∧ l.target = lk.target
                · rw [if_pos hc]; exact hlne
                · rwa [if_neg hc]) hg
  | applyFormalizationSuccess src tgt fr g =>
      refine linkTypesNonEmpty_map g _ ?_ hg
      intro l hlne
      by_cases hc : l.source = src ∧ l.target = tgt
      · rw [if_pos hc]; exact hlne
      · rwa [if_neg hc]
  | applyFormalizationError src tgt g =>
      refine linkTypesNonEmpty_map g _ ?_ hg
      intro l hlne
      by_cases hc : l.source = src ∧ l.target = tgt
      · rw [if_pos hc]; exact hlne
      · rwa [if_neg hc]
  | handleSynthesizeRegionInsert freshId sel nm syn rs g =>
      intro l hl
      rcases List.mem_append.mp hl with h | h
      · exact hg l h
      · obtain ⟨n, hn, rfl⟩ := List.mem_map.mp h
        simp
  | handleAnalyzeGenealogyInsert sourceId entries g =>
      intro l hl
      rcases List.mem_append.mp hl with h | h
      · exact hg l h
      · obtain ⟨e, he, rfl⟩ := List.mem_map.mp h
        by_cases hp : e.isPrecursor = true
        · rw [if_pos hp]; simp
        · rw [if_neg hp]; simp
  | handleAddDialecticNode kind title detail lk mid freshId g =>
      unfold handleAddDialecticNode
      split
      · split <;>
          · intro l hl
            rcases List.mem_append.mp hl with h | h
            · exact hg l h
            · rcases List.mem_singleton.mp h with rfl
              simp
      · exact hg
  | handleAddCounterExampleNode ce syn just tgt freshId g =>
      unfold handleAddCounterExampleNode
      split
      · intro l hl
        rcases List.mem_append.mp hl with h | h
        · exact hg l h
        · rcases List.mem_singleton.mp h with rfl
          simp
      · exact hg

/-- Every reachable layout satisfies the non-empty-types invariant. -/
theorem reachable_linkTypesNonEmpty (g : Graph) (h : Reachable g) :
    linkTypesNonEmpty g := by
  induction h with
  | init => intro l hl; simp [emptyGraph] at hl
  | step hr hs ih => exact linkTypesNonEmpty_preserved hs ih

/-- The justification-wrapping half of link migration leaves both
relationship-type fields untouched. -/
theorem migrateLinkJust_rel (l : StoredLink) :
    (migrateLinkJust l).relationshipTypes = l.relationshipTypes
      ∧ (migrateLinkJust l).relationshipType = l.relationshipType := by
  unfold migrateLinkJust
  split <;> exact ⟨rfl, rfl⟩

/-- The relationship-type half of link migration leaves `justification`
untouched. -/
theorem migrateLinkRel_just (l : StoredLink) :
    (migrateLinkRel l).justification = l.justification := by
  unfold migrateLinkRel
  split
  · split <;> rfl
  · rfl

/-- A link with a non-empty singular field and no plural field is rewritten
by the relationship-type half exactly as the migration specifies. -/
theorem migrateLinkRel_converts (l : StoredLink) (v : String)
    (hv : l.relationshipType = some v) (hne : v ≠ "")
    (hnone : l.relationshipTypes = none) :
    migrateLinkRel l = { l with relationshipTypes := some [v], relationshipType := none } := by
  unfold migrateLinkRel
  rw [hv, hnone]
  exact if_neg hne

/-- Post-load sanitation does not change the session version. -/
theorem sanitizeSession_version (s : StoredSession) :
    (sanitizeSession s).version = s.version := by
  simp only [sanitizeSession]
  split <;> rfl

/-- Post-load sanitation maps `sanitizeProject` over the project list and
does nothing else to it. -/
theorem sanitizeSession_projects (s : StoredSession) :
    (sanitizeSession s).projects = s.projects.map sanitizeProject := by
  simp only [sanitizeSession]
  split <;> rfl

/-- **C1** (counterexample). The claim says `createLink(a, b, types)` is a
no-op when a link already connects `a` and `b` in either direction. On the
layout `gAB`, which already holds the link `A → B`, both `createLink(A, B)`
and `createLink(B, A)` append a second link: the link list grows from one
entry to two, so `createLink` itself performs no duplicate check. -/
theorem createLink_appends_duplicate_cex :
    gAB.links.length = 1
      ∧ ((createLink (NodeId.num 1) (NodeId.num 2) ["Causal"] gAB).1).links.length = 2
      ∧ ((createLink (NodeId.num 2) (NodeId.num 1) ["Causal"] gAB).1).links.length = 2 := by
  decide

/-- **C1** (amended): the undirected duplicate check lives at the call
site, not in `createLink`. When some link already connects `a` and `b` in
either direction, `handleNodeClick` never opens the relationship menu — the
only route into `createLink` — for that pair (in either click order);
`createLink` itself appends unconditionally whenever both endpoint ids
resolve in the node map. -/
theorem duplicate_guard_at_call_site :
    (∀ (g : Graph) (a b : NodeId),
        (∃ l ∈ g.links,
          (l.source = a ∧ l.target = b) ∨ (l.source = b ∧ l.target = a)) →
        handleNodeClickOpensMenu g a b = false
          ∧ handleNodeClickOpensMenu g b a = false)
    ∧ (∀ (s t : NodeId) (tys : List RelationshipType) (g : Graph),
        (nodeMapGet g.nodes s).isSome → (nodeMapGet g.nodes t).isSome →
        ((createLink s t tys g).1).links.length = g.links.length + 1) := by
  constructor
  · intro g a b h
    obtain ⟨l, hl, hor⟩ := h
    constructor
    · have hany : (g.links.any fun l =>
          decide ((l.source = a ∧ l.target = b)
            ∨ (l.source = b ∧ l.target = a))) = true :=
        List.any_eq_true.mpr ⟨l, hl, by simpa using hor⟩
      unfold handleNodeClickOpensMenu
      rw [hany]
      simp
    · have hany : (g.links.any fun l =>
          decide ((l.source = b ∧ l.target = a)
            ∨ (l.source = a ∧ l.target = b))) = true :=
        List.any_eq_true.mpr ⟨l, hl, by simpa using hor.symm⟩
      unfold handleNodeClickOpensMenu
      rw [hany]
      simp
  · intro s t tys g hs ht
    obtain ⟨sn, h1⟩ := Option.isSome_iff_exists.mp hs
    obtain ⟨tn, h2⟩ := Option.isSome_iff_exists.mp ht
    unfold createLink
    rw [h1, h2]
    simp

/-- **C1** (witness): on `gAB` the click flow refuses to open the menu for
the already-linked pair, while a direct `createLink` call grows the link
list. -/
theorem duplicate_guard_at_call_site_witness :
    handleNodeClickOpensMenu gAB (NodeId.num 1) (NodeId.num 2) = false
      ∧ ((createLink (NodeId.num 1) (NodeId.num 2) ["Causal"] gAB).1).links.length
          = gAB.links.length + 1 :=
  ⟨(duplicate_guard_at_call_site.1 gAB (NodeId.num 1) (NodeId.num 2)
      ⟨linkAB, by decide, by decide⟩).1,
   duplicate_guard_at_call_site.2 (NodeId.num 1) (NodeId.num 2) ["Causal"] gAB
      (by decide) (by decide)⟩

/-- **C2**: for a node id present in the layout, `deleteNode` produces in
one transition a layout where the node is gone, no link keeps it as source
or target, and no logical construct keeps it as premise or conclusion. -/
theorem deleteNode_cascade (g : Graph) (n : NodeId)
    (_h : ∃ nd ∈ g.nodes, nd.id = n) :
    (∀ nd ∈ (deleteNode n g).nodes, nd.id ≠ n)
      ∧ (∀ l ∈ (deleteNode n g).links, l.source ≠ n ∧ l.target ≠ n)
      ∧ (∀ c ∈ (deleteNode n g).logicalConstructs,
          n ∉ c.premiseNodeIds ∧ c.conclusionNodeId ≠ n) := by
  refine ⟨fun nd hnd => ?_, fun l hl => ?_, fun c hc => ?_⟩
  · have h2 := (List.mem_filter.mp hnd).2
    simpa using h2
  · have h2 := (List.mem_filter.mp hl).2
    simpa using h2
  · have h2 := (List.mem_filter.mp hc).2
    simp at h2
    exact ⟨h2.2, h2.1⟩

/-- **C2** (witness): deleting node `A` from the layout holding `A`, `B`,
the link `A → B` and a construct with premise `A`. -/
theorem deleteNode_cascade_witness :
    (∀ nd ∈ (deleteNode (NodeId.num 1) gFull).nodes, nd.id ≠ NodeId.num 1)
      ∧ (∀ l ∈ (deleteNode (NodeId.num 1) gFull).links,
          l.source ≠ NodeId.num 1 ∧ l.target ≠ NodeId.num 1)
      ∧ (∀ c ∈ (deleteNode (NodeId.num 1) gFull).logicalConstructs,
          NodeId.num 1 ∉ c.premiseNodeIds ∧ c.conclusionNodeId ≠ NodeId.num 1) :=
  deleteNode_cascade gFull (NodeId.num 1) ⟨nA, by decide, by decide⟩

/-- **C4** (counterexample). The claim says a second enrichment request for
a field already in `loading` state is a no-op with nothing dispatched. On
`gJLoading`, whose link has `justificationState = loading`, calling
`generateJustification` again dispatches the external request anyway (the
returned flag is `true`): the source has no loading guard for the
justification field. -/
theorem justification_dispatch_while_loading_cex :
    linkABjLoading.justificationState = some EnrichState.loading
      ∧ (generateJustificationStart linkABjLoading gJLoading).2 = true := by
  decide

/-- **C4** (amended): only the implications field carries the in-flight
guard. `handleExploreImplications` on a link whose `implicationsState` is
already `loading` is a no-op dispatching nothing; `generateJustification`
and `handleFormalizeArgument` dispatch whenever both endpoints resolve,
regardless of the field's current state. -/
theorem loading_guard_only_for_implications :
    (∀ (g : Graph) (link : MapLink),
        link.implicationsState = some EnrichState.loading →
        handleExploreImplicationsStart link g = (g, false))
    ∧ (∀ (g : Graph) (link : MapLink),
        (nodeMapGet g.nodes link.source).isSome →
        (nodeMapGet g.nodes link.target).isSome →
        (generateJustificationStart link g).2 = true
          ∧ (handleFormalizeArgumentLinkStart link g).2 = true) := by
  constructor
  · intro g link h
    unfold handleExploreImplicationsStart
    rw [if_pos (Or.inr (Or.inr h))]
  · intro g link hs ht
    obtain ⟨sn, h1⟩ := Option.isSome_iff_exists.mp hs
    obtain ⟨tn, h2⟩ := Option.isSome_iff_exists.mp ht
    unfold generateJustificationStart handleFormalizeArgumentLinkStart
    rw [h1, h2]
    exact ⟨rfl, rfl⟩

/-- **C4** (witness): the implications guard fires on `gILoading`, while a
justification request on `gJLoading` dispatches despite the loading tag. -/
theorem loading_guard_only_for_implications_witness :
    handleExploreImplicationsStart linkABiLoading gILoading = (gILoading, false)
      ∧ (generateJustificationStart linkABjLoading gJLoading).2 = true :=
  ⟨loading_guard_only_for_implications.1 gILoading linkABiLoading (by decide),
   (loading_guard_only_for_implications.2 gJLoading linkABjLoading
      (by decide) (by decide)).1⟩

/-- **C3** (counterexample). The claim says every link carrying a singular
legacy `relationshipType` ends up with `relationshipTypes: [value]` and the
singular field removed. Loading `storedSessBoth` (version 3, one link
carrying `relationshipType: "Causal"` **and** `relationshipTypes:
["Supportive"]`), the loaded link still carries `relationshipType =
"Causal"` and keeps `relationshipTypes = ["Supportive"]`: the migration
converts only when the plural field is absent. -/
theorem migration_keeps_singular_with_both_cex :
    (firstStoredLink (loadSavedSession storedSessBoth)).map StoredLink.relationshipType
        = some (some "Causal")
      ∧ (firstStoredLink (loadSavedSession storedSessBoth)).map StoredLink.relationshipTypes
        = some (some ["Supportive"]) := by
  decide

/-- **C3** (amended): loading a stored session whose version is behind the
current constant migrates every project's link list with `migrateLink` and
stamps the current version; `migrateLink` converts the singular legacy
field into `relationshipTypes = [value]` with the singular field removed
exactly when that field is a non-empty string and `relationshipTypes` is
absent, and wraps every plain-string justification as
`{ text, citations: [] }` unconditionally. -/
theorem migration_normalizes_legacy_links (s : StoredSession)
    (h : s.version < MULTI_PROJECT_SESSION_VERSION) :
    ∃ s', loadSavedSession s = some s'
      ∧ s'.version = MULTI_PROJECT_SESSION_VERSION
      ∧ s'.projects.map (fun p => p.data.mapLayout.links)
          = s.projects.map (fun p => (p.data.mapLayout.links).map (List.map migrateLink))
      ∧ (∀ (l : StoredLink) (v : String), l.relationshipType = some v → v ≠ "" →
          l.relationshipTypes = none →
          (migrateLink l).relationshipTypes = some [v]
            ∧ (migrateLink l).relationshipType = none)
      ∧ (∀ (l : StoredLink) (t : String), l.justification = JustField.str t →
          (migrateLink l).justification = JustField.obj ⟨t, []⟩) := by
  refine ⟨sanitizeSession (migrateSession s), ?_, ?_, ?_, ?_, ?_⟩
  · unfold loadSavedSession
    rw [if_pos (Or.inr h)]
    rfl
  · rw [sanitizeSession_version]
    rfl
  · rw [sanitizeSession_projects]
    show ((s.projects.map migrateProject).map sanitizeProject).map _ = _
    simp only [List.map_map]
    rfl
  · intro l v hv hne hnone
    unfold migrateLink
    rw [migrateLinkRel_converts l v hv hne hnone]
    have hj := migrateLinkJust_rel { l with relationshipTypes := some [v], relationshipType := none }
    rw [hj.1, hj.2]
    exact ⟨rfl, rfl⟩
  · intro l t ht
    unfold migrateLink migrateLinkJust
    rw [migrateLinkRel_just, ht]

/-- **C3** (witness): the version-3 session `storedSessLegacy`, whose link
is in the pure legacy shape, loads with the link converted and the version
stamped current. -/
theorem migration_normalizes_legacy_links_witness :
    (migrateLink storedLinkLegacy).relationshipTypes = some ["Causal"]
      ∧ (migrateLink storedLinkLegacy).relationshipType = none
      ∧ (migrateLink storedLinkLegacy).justification
          = JustField.obj ⟨"because X", []⟩
      ∧ (loadSavedSession storedSessLegacy).map StoredSession.version
          = some MULTI_PROJECT_SESSION_VERSION := by
  obtain ⟨s', hload, hver, _hlinks, hrel, hjust⟩ :=
    migration_normalizes_legacy_links storedSessLegacy (by decide)
  have hr := hrel storedLinkLegacy "Causal" rfl (by decide) rfl
  refine ⟨hr.1, hr.2, hjust storedLinkLegacy "because X" rfl, ?_⟩
  rw [hload]
  simp [hver]

/-- **C5**: `deleteProject` filters out the project with the given id;
when nothing remains it installs exactly one freshly minted
`Default Project` (with empty data) and activates it; when the deleted
project was active it activates the first survivor; the project list is
never left empty. -/
theorem deleteProject_repairs_session (freshId projectId : String) (s : Session) :
    (handleDeleteProject freshId projectId s).projects ≠ []
      ∧ (s.projects.filter (fun p => decide (p.id ≠ projectId)) = [] →
          handleDeleteProject freshId projectId s
            = { s with projects := [createNewProject freshId "Default Project"],
                       activeProjectId := some freshId })
      ∧ (∀ (p0 : Project) (rest : List Project),
          s.projects.filter (fun p => decide (p.id ≠ projectId)) = p0 :: rest →
          (handleDeleteProject freshId projectId s).projects = p0 :: rest
            ∧ (handleDeleteProject freshId projectId s).activeProjectId
                = (if s.activeProjectId = some projectId then some p0.id
                   else s.activeProjectId))
      ∧ (createNewProject freshId "Default Project").name = "Default Project"
      ∧ (createNewProject freshId "Default Project").data
          = { mapLayout := emptyGraph, mapTrayConceptIds := [], trackedFeeds := [],
              seenPublicationIds := [], projectDiary := [] } := by
  refine ⟨?_, ?_, ?_, rfl, rfl⟩
  · unfold handleDeleteProject
    split <;> simp
  · intro hf
    unfold handleDeleteProject
    rw [hf]
    rfl
  · intro p0 rest hf
    unfold handleDeleteProject
    rw [hf]
    exact ⟨rfl, rfl⟩

/-- **C5** (witness): deleting the only project of `sessP1` leaves exactly
one fresh active `Default Project`. -/
theorem deleteProject_repairs_session_witness :
    handleDeleteProject "proj_fresh" "p1" sessP1
      = { sessP1 with projects := [createNewProject "proj_fresh" "Default Project"],
                      activeProjectId := some "proj_fresh" } :=
  (deleteProject_repairs_session "proj_fresh" "p1" sessP1).2.1 (by decide)

/-- **C6**: the load pipeline is idempotent on an already-current session:
when the version equals the current constant, diary and construct arrays
and the session-level collections are present, every feed's transient flags
are cleared, and `activeProjectId` names an existing project, loading
returns the session structurally unchanged. -/
theorem migration_idempotent_on_current (s : StoredSession)
    (hv : s.version = MULTI_PROJECT_SESSION_VERSION)
    (hproj : ∀ p ∈ s.projects,
        p.data.projectDiary.isSome
          ∧ p.data.mapLayout.logicalConstructs.isSome
          ∧ ∀ f ∈ p.data.trackedFeeds.getD [],
              f.isLoading = false ∧ f.error = none)
    (hcrt : s.customRelationshipTypes.isSome)
    (hddt : s.disabledDefaultTypes.isSome)
    (hdct : s.disabledCustomTypes.isSome)
    (hactive : ∃ p ∈ s.projects, some p.id = s.activeProjectId) :
    loadSavedSession s = some s := by
  have hfix : ∀ p ∈ s.projects, sanitizeProject p = p := by
    intro p hp
    obtain ⟨hd, hl, hf⟩ := hproj p hp
    obtain ⟨d, hd'⟩ := Option.isSome_iff_exists.mp hd
    obtain ⟨lcs, hl'⟩ := Option.isSome_iff_exists.mp hl
    have hfeeds : (p.data.trackedFeeds).map (List.map sanitizeFeed)
        = p.data.trackedFeeds := by
      rcases htf : p.data.trackedFeeds with _ | fs
      · rfl
      · have hmap : fs.map sanitizeFeed = fs := by
          refine list_map_self fs sanitizeFeed fun f hfm => ?_
          have hff := hf f (by rw [htf]; simpa using hfm)
          cases f with
          | mk url il er =>
              have h1 : il = false := hff.1
              have h2 : er = none := hff.2
              simp [sanitizeFeed, h1, h2]
        exact congrArg some hmap
    unfold sanitizeProject
    rw [hfeeds, hd', hl']
    simp only [Option.getD_some]
    rw [← hd', ← hl']
  have hproj_map : s.projects.map sanitizeProject = s.projects :=
    list_map_self _ _ hfix
  obtain ⟨crt, hcrt'⟩ := Option.isSome_iff_exists.mp hcrt
  obtain ⟨ddt, hddt'⟩ := Option.isSome_iff_exists.mp hddt
  obtain ⟨dct, hdct'⟩ := Option.isSome_iff_exists.mp hdct
  have hsan : sanitizeSession s = s := by
    simp only [sanitizeSession]
    rw [hproj_map, hcrt', hddt', hdct']
    simp only [Option.getD_some]
    rw [← hcrt', ← hddt', ← hdct']
    obtain ⟨p, hp, hpe⟩ := hactive
    have hany : (s.projects.any fun p => decide (some p.id = s.activeProjectId))
        = true :=
      List.any_eq_true.mpr ⟨p, hp, by simpa using hpe⟩
    rw [hany]
    simp
  have hcond : ¬ (s.version = 0 ∨ s.version < MULTI_PROJECT_SESSION_VERSION) := by
    rw [hv]
    decide
  unfold loadSavedSession
  rw [if_neg hcond, if_pos hv, hsan]

/-- **C6** (witness): loading the already-current `storedSessCurrent`
returns it unchanged. -/
theorem migration_idempotent_on_current_witness :
    loadSavedSession storedSessCurrent = some storedSessCurrent :=
  migration_idempotent_on_current storedSessCurrent rfl (by decide) (by decide)
    (by decide) (by decide) (by decide)

/-- **C7**: every layout reachable from empty through the mutation
operations keeps `relationshipTypes` non-empty on every link; in
particular `createLink` with an empty type list stores `['Unclassified']`
on the appended link, and `updateLinkRelationshipTypes` with an empty list
stores `['Unclassified']` on the updated link. -/
theorem relationshipTypes_never_empty :
    (∀ g : Graph, Reachable g → linkTypesNonEmpty g)
      ∧ (∀ (s t : NodeId) (g : Graph),
          (nodeMapGet g.nodes s).isSome → (nodeMapGet g.nodes t).isSome →
          ∀ l ∈ ((createLink s t [] g).1).links,
            l ∈ g.links ∨ l.relationshipTypes = ["Unclassified"])
      ∧ (∀ (lk : MapLink) (g : Graph),
          ∀ l ∈ (updateLinkRelationshipTypes lk [] g).links,
            l ∈ g.links ∨ l.relationshipTypes = ["Unclassified"]) := by
  refine ⟨reachable_linkTypesNonEmpty, ?_, ?_⟩
  · intro s t g hs ht l hl
    obtain ⟨sn, h1⟩ := Option.isSome_iff_exists.mp hs
    obtain ⟨tn, h2⟩ := Option.isSome_iff_exists.mp ht
    unfold createLink at hl
    rw [h1, h2] at hl
    rcases List.mem_append.mp hl with hmem | hmem
    · exact Or.inl hmem
    · right
      rcases List.mem_singleton.mp hmem with rfl
      rfl
  · intro lk g l hl
    obtain ⟨a, ha, rfl⟩ := List.mem_map.mp hl
    by_cases hc : a.source = lk.source ∧ a.target = lk.target
    · right
      rw [if_pos hc]
      rfl
    · left
      rw [if_neg hc]
      exact ha

/-- **C7** (witness): a layout reached by dropping `A` and `B` and linking
them with an empty type list satisfies the invariant. -/
theorem relationshipTypes_never_empty_witness :
    linkTypesNonEmpty gReached :=
  relationshipTypes_never_empty.1 gReached
    (Reachable.step
      (Reachable.step
        (Reachable.step Reachable.init (Step.handleDrop 1 "A" (0, 0) emptyGraph))
        (Step.handleDrop 2 "B" (100, 0) _))
      (Step.createLink (NodeId.num 1) (NodeId.num 2) [] _))

/-- **C8**: an enrichment completion — success or error, for any of the
three link fields — whose target `(source, target)` key matches no link in
the current layout leaves the layout structurally unchanged: nothing is
raised, recreated, or modified, because every merge re-locates its target
by key in the state current at completion time. -/
theorem stale_completion_silent_noop (src tgt : NodeId) (j : Justification)
    (qs : List String) (fr : FormalizationResult) (g : Graph)
    (h : ∀ l ∈ g.links, ¬ (l.source = src ∧ l.target = tgt)) :
    applyJustificationSuccess src tgt j g = g
      ∧ applyJustificationError src tgt g = g
      ∧ applyImplicationsSuccess src tgt qs g = g
      ∧ applyImplicationsError src tgt g = g
      ∧ applyFormalizationSuccess src tgt fr g = g
      ∧ applyFormalizationError src tgt g = g := by
  refine ⟨?_, ?_, ?_, ?_, ?_, ?_⟩
  · unfold applyJustificationSuccess
    rw [list_map_self _ _ fun l hl => if_neg (h l hl)]
  · unfold applyJustificationError
    rw [list_map_self _ _ fun l hl => if_neg (h l hl)]
  · unfold applyImplicationsSuccess
    rw [list_map_self _ _ fun l hl => if_neg (h l hl)]
  · unfold applyImplicationsError
    rw [list_map_self _ _ fun l hl => if_neg (h l hl)]
  · unfold applyFormalizationSuccess
    rw [list_map_self _ _ fun l hl => if_neg (h l hl)]
  · unfold applyFormalizationError
    rw [list_map_self _ _ fun l hl => if_neg (h l hl)]

/-- **C8** (witness): completions keyed `(7, 8)` — a pair deleted from or
never present in `gAB` — leave `gAB` untouched. -/
theorem stale_completion_silent_noop_witness :
    applyJustificationSuccess (NodeId.num 7) (NodeId.num 8) ⟨"txt", []⟩ gAB = gAB
      ∧ applyImplicationsError (NodeId.num 7) (NodeId.num 8) gAB = gAB :=
  ⟨(stale_completion_silent_noop (NodeId.num 7) (NodeId.num 8) ⟨"txt", []⟩ []
      ⟨[], [], ""⟩ gAB (by decide)).1,
   (stale_completion_silent_noop (NodeId.num 7) (NodeId.num 8) ⟨"txt", []⟩ []
      ⟨[], [], ""⟩ gAB (by decide)).2.2.2.1⟩

/-- **C9** (counterexample). The claim says `switchProject(id)` is a no-op
when no project carries `id`. `sessP1` has a single project `p1`, yet
switching to the nonexistent id `ghost` rewrites `activeProjectId` to
`ghost` — the source sets it unconditionally. -/
theorem switchProject_dangling_id_cex :
    (sessP1.projects.all fun p => decide (p.id ≠ "ghost")) = true
      ∧ (handleSwitchProject "ghost" sessP1).activeProjectId = some "ghost"
      ∧ handleSwitchProject "ghost" sessP1 ≠ sessP1 := by
  decide

/-- **C9** (amended): `switchProject(id)` sets `activeProjectId` to the
given id unconditionally — whether or not a project with that id exists —
and changes nothing else in the session. -/
theorem switchProject_unconditional (projectId : String) (s : Session) :
    (handleSwitchProject projectId s).activeProjectId = some projectId
      ∧ (handleSwitchProject projectId s).projects = s.projects
      ∧ (handleSwitchProject projectId s).version = s.version
      ∧ (handleSwitchProject projectId s).customRelationshipTypes
          = s.customRelationshipTypes
      ∧ (handleSwitchProject projectId s).disabledDefaultTypes
          = s.disabledDefaultTypes
      ∧ (handleSwitchProject projectId s).disabledCustomTypes
          = s.disabledCustomTypes :=
  ⟨rfl, rfl, rfl, rfl, rfl, rfl⟩

/-- **C10**: `createLink(s, t, types)` with either endpoint id absent from
the layout's node list changes nothing and logs no activity entry. -/
theorem createLink_missing_endpoint_noop (s t : NodeId)
    (tys : List RelationshipType) (g : Graph)
    (h : (∀ nd ∈ g.nodes, nd.id ≠ s) ∨ (∀ nd ∈ g.nodes, nd.id ≠ t)) :
    createLink s t tys g = (g, none) := by
  unfold createLink
  rcases h with h | h
  · rw [nodeMapGet_eq_none _ _ h]
  · rw [nodeMapGet_eq_none _ _ h]
    rcases nodeMapGet g.nodes s with _ | sn <;> rfl

/-- **C10** (witness): linking from the absent id `3` on `gAB` returns the
layout unchanged with no activity payload. -/
theorem createLink_missing_endpoint_noop_witness :
    createLink (NodeId.num 3) (NodeId.num 2) ["Supportive"] gAB = (gAB, none) :=
  createLink_missing_endpoint_noop (NodeId.num 3) (NodeId.num 2) ["Supportive"]
    gAB (Or.inl (by decide))

end Phil
